import Mathlib

/-!
Verification of the lyrics-selection plugin (`picard-sozler-dimant.py`).

The embedding translates the plugin's pure core (`choose_best_result`) and
its request/response glue (`process_track`, `process_response`) into Lean:

* A candidate search result becomes the structure `LyricsResult`; absent
  JSON fields become `none`, and Python truthiness of the relevant values
  (nonzero number, non-empty string) becomes the `intTruthy` / `strTruthy`
  predicates.
* The selection loop becomes a left fold of a step function `processResult`
  over the candidate list, carrying the four first-wins slots in the
  structure `SlotState`; the final chain of Python `or`s becomes `pyOr`.
* The response handler becomes the pure function `process_response` on an
  explicit album/metadata state.  Python's `try/except/finally` semantics
  are translated faithfully: the `finally` block (counter decrement plus
  finalize call) runs on every path of the `try`, including the early
  `return` on a non-list payload and the exception raised by a malformed
  length string.
-/

namespace PicardSozler

/-- `DURATION_TOLERANCE = 2  # seconds`. -/
def DURATION_TOLERANCE : Int := 2

/-- One candidate record of the lrclib search response.  A JSON field that
is absent maps to `none`; `instrumental` defaults to `false` when absent,
matching the falsy `result.get("instrumental")`. -/
structure LyricsResult where
  instrumental : Bool
  duration : Option Int
  syncedLyrics : Option String
  plainLyrics : Option String
deriving Repr, DecidableEq

/-- Python truthiness of an optional string: `None` and `""` are falsy. -/
def strTruthy : Option String → Bool
  | none => false
  | some s => s != ""

/-- Python truthiness of an optional integer: `None` and `0` are falsy. -/
def intTruthy : Option Int → Bool
  | none => false
  | some d => d != 0

/-- The four first-wins slots maintained by the selection loop.  Each holds
`none` until a qualifying candidate's lyrics string is stored. -/
structure SlotState where
  synced_duration_match : Option String
  synced_any : Option String
  plain_duration_match : Option String
  plain_any : Option String
deriving Repr, DecidableEq

/-- All four slots start out empty (`None` in the source). -/
def initSlots : SlotState := ⟨none, none, none, none⟩

/-- The `duration_match` computation of the loop body:
```
duration_match = False
if duration and target_duration:
    if abs(duration - target_duration) <= DURATION_TOLERANCE:
        duration_match = True
``` -/
def durationMatch (duration : Option Int) (target_duration : Int) : Bool :=
  if intTruthy duration && (target_duration != 0) then
    match duration with
    | some d => decide (|d - target_duration| ≤ DURATION_TOLERANCE)
    | none => false
  else
    false

/-- One iteration of the `for result in results` loop of
`choose_best_result`: skip instrumental candidates, compute
`duration_match`, then run the synced `if/elif` block followed by the
plain `if/elif` block on the state it produced. -/
def processResult (target_duration : Int) (st : SlotState)
    (result : LyricsResult) : SlotState :=
  if result.instrumental then st
  else
    let duration := result.duration
    let synced := result.syncedLyrics
    let plain := result.plainLyrics
    let dm := durationMatch duration target_duration
    let st1 :=
      if strTruthy synced then
        if dm && !(strTruthy st.synced_duration_match) then
          { st with synced_duration_match := synced }
        else if !(strTruthy st.synced_any) then
          { st with synced_any := synced }
        else st
      else st
    if strTruthy plain then
      if dm && !(strTruthy st1.plain_duration_match) then
        { st1 with plain_duration_match := plain }
      else if !(strTruthy st1.plain_any) then
        { st1 with plain_any := plain }
      else st1
    else st1

/-- Run the selection loop from an arbitrary slot state. -/
def foldSlots (target_duration : Int) (st : SlotState)
    (results : List LyricsResult) : SlotState :=
  results.foldl (processResult target_duration) st

/-- Slot state after the full pass of `choose_best_result` over the list. -/
def runSlots (results : List LyricsResult) (target_duration : Int) :
    SlotState :=
  foldSlots target_duration initSlots results

/-- Python's `a or b` on the slot values: the left operand if truthy,
otherwise the right operand. -/
def pyOr (a b : Option String) : Option String :=
  if strTruthy a then a else b

/-- `choose_best_result(results, target_duration)`: run the loop, then
return `synced_duration_match or synced_any or plain_duration_match or
plain_any`. -/
def choose_best_result (results : List LyricsResult)
    (target_duration : Int) : Option String :=
  let st := runSlots results target_duration
  pyOr st.synced_duration_match
    (pyOr st.synced_any (pyOr st.plain_duration_match st.plain_any))

/-- The album state touched by the plugin: the in-flight request counter
`_requests` and a count of `_finalize_loading(None)` calls (the source
calls it at most once per handler invocation; counting the calls lets the
"exactly once" claims be stated). -/
structure Album where
  requests : Int
  finalized : Nat
deriving Repr, DecidableEq

/-- The metadata fields the plugin reads (`artist`, `title`, `~length`)
and the one it writes (`lyrics`).  `none` models an absent key. -/
structure Metadata where
  artist : Option String
  title : Option String
  length : Option String
  lyrics : Option String
deriving Repr, DecidableEq

/-- Python's `s.split(":")`: cut the character list at every colon.  An
empty input yields one empty field, exactly as in Python. -/
def splitOnColon : List Char → List (List Char)
  | [] => [[]]
  | c :: rest =>
    if c = ':' then [] :: splitOnColon rest
    else
      match splitOnColon rest with
      | [] => [[c]]
      | g :: gs => (c :: g) :: gs

/-- Accumulate decimal digits; `none` as soon as a non-digit appears,
modelling the `ValueError` of Python's `int`. -/
def parseDigits : List Char → Nat → Option Nat
  | [], acc => some acc
  | c :: rest, acc =>
    if c.isDigit then
      parseDigits rest (acc * 10 + (c.toNat - '0'.toNat))
    else none

/-- Python's `int(str)` on a stripped numeral: an optional sign followed
by at least one digit; anything else raises (`none`). -/
def parseInt : List Char → Option Int
  | [] => none
  | '-' :: rest =>
    if rest = [] then none
    else (parseDigits rest 0).map (fun n => -(n : Int))
  | '+' :: rest =>
    if rest = [] then none
    else (parseDigits rest 0).map (fun n => (n : Int))
  | cs => (parseDigits cs 0).map (fun n => (n : Int))

/-- `mins, secs = map(int, s.split(":")); mins * 60 + secs`.  Returns
`none` when the Python code would raise: the split does not yield exactly
two fields, or a field is not a valid integer numeral. -/
def parseLength (s : String) : Option Int :=
  match splitOnColon s.toList with
  | [mcs, scs] =>
    match parseInt mcs, parseInt scs with
    | some mins, some secs => some (mins * 60 + secs)
    | _, _ => none
  | _ => none

/-- The decoded payload handed to the response handler: either a JSON list
of candidate records, or any value that is not a list. -/
inductive ResponseData where
  | list (results : List LyricsResult)
  | notList
deriving Repr, DecidableEq

/-- `process_response(album, metadata, data, reply, error)` as a pure map
from the incoming album/metadata state to the outgoing one.

Path by path, following the source:
* `error` truthy: log, `album._requests -= 1`, `album._finalize_loading(None)`,
  return — metadata untouched.
* otherwise the `try` body runs; whatever way it exits (normal fall-through,
  the early `return` on a non-list payload, or the `ValueError` of a
  malformed `~length` string caught by the broad `except`), the `finally`
  block decrements `_requests` and finalizes loading.  Metadata is written
  only when `choose_best_result` returned a truthy value. -/
def process_response (album : Album) (metadata : Metadata)
    (data : ResponseData) (error : Bool) : Album × Metadata :=
  if error then
    ({ requests := album.requests - 1, finalized := album.finalized + 1 },
     metadata)
  else
    let metadata' :=
      match data with
      | .notList => metadata
      | .list results =>
        match parseLength ((metadata.length).getD "0:0") with
        | none => metadata
        | some target_duration =>
          let lyrics := choose_best_result results target_duration
          if strTruthy lyrics then { metadata with lyrics := lyrics }
          else metadata
    ({ requests := album.requests - 1, finalized := album.finalized + 1 },
     metadata')

/-- The query dictionary built by `process_track` for the single
`get_url` dispatch. -/
structure QueryArgs where
  artist_name : Option String
  track_name : Option String
deriving Repr, DecidableEq

/-- `process_track(album, metadata, track, release)`: parse the length
string (falling back to `None` on failure — the value is never used),
dispatch exactly one request, and do `album._requests += 1`.  The returned
pair is the updated album and the query of the one dispatched request. -/
def process_track (album : Album) (metadata : Metadata) :
    Album × QueryArgs :=
  let _duration : Option Int := parseLength ((metadata.length).getD "0:0")
  ({ album with requests := album.requests + 1 },
   { artist_name := metadata.artist, track_name := metadata.title })

/-! ### Characterization of one loop iteration, slot by slot -/

theorem processResult_instrumental (t : Int) (st : SlotState)
    (r : LyricsResult) (h : r.instrumental = true) :
    processResult t st r = st := by
  simp [processResult, h]

theorem processResult_sdm (t : Int) (st : SlotState) (r : LyricsResult) :
    (processResult t st r).synced_duration_match =
      if !r.instrumental && strTruthy r.syncedLyrics
          && durationMatch r.duration t
          && !(strTruthy st.synced_duration_match)
      then r.syncedLyrics else st.synced_duration_match := by
  cases hI : r.instrumental <;>
    simp only [processResult, hI, Bool.not_true, Bool.not_false,
      Bool.false_and, Bool.true_and, if_true, if_false, Bool.false_eq_true,
      ite_false, ite_true] <;>
    split_ifs <;> simp_all

theorem processResult_sany (t : Int) (st : SlotState) (r : LyricsResult) :
    (processResult t st r).synced_any =
      if !r.instrumental && strTruthy r.syncedLyrics
          && !(durationMatch r.duration t
                && !(strTruthy st.synced_duration_match))
          && !(strTruthy st.synced_any)
      then r.syncedLyrics else st.synced_any := by
  cases hI : r.instrumental <;>
    simp only [processResult, hI, Bool.not_true, Bool.not_false,
      Bool.false_and, Bool.true_and, if_true, if_false, Bool.false_eq_true,
      ite_false, ite_true] <;>
    split_ifs <;> simp_all

theorem processResult_pdm (t : Int) (st : SlotState) (r : LyricsResult) :
    (processResult t st r).plain_duration_match =
      if !r.instrumental && strTruthy r.plainLyrics
          && durationMatch r.duration t
          && !(strTruthy st.plain_duration_match)
      then r.plainLyrics else st.plain_duration_match := by
  cases hI : r.instrumental <;>
    simp only [processResult, hI, Bool.not_true, Bool.not_false,
      Bool.false_and, Bool.true_and, if_true, if_false, Bool.false_eq_true,
      ite_false, ite_true] <;>
    split_ifs <;> simp_all

theorem processResult_pany (t : Int) (st : SlotState) (r : LyricsResult) :
    (processResult t st r).plain_any =
      if !r.instrumental && strTruthy r.plainLyrics
          && !(durationMatch r.duration t
                && !(strTruthy st.plain_duration_match))
          && !(strTruthy st.plain_any)
      then r.plainLyrics else st.plain_any := by
  cases hI : r.instrumental <;>
    simp only [processResult, hI, Bool.not_true, Bool.not_false,
      Bool.false_and, Bool.true_and, if_true, if_false, Bool.false_eq_true,
      ite_false, ite_true] <;>
    split_ifs <;> simp_all

/-! ### Invariants of the full pass -/

theorem strTruthy_iff (o : Option String) :
    strTruthy o = true ↔ ∃ s, o = some s ∧ s ≠ "" := by
  cases o <;> simp [strTruthy]

theorem foldSlots_cons (t : Int) (st : SlotState) (r : LyricsResult)
    (l : List LyricsResult) :
    foldSlots t st (r :: l) = foldSlots t (processResult t st r) l := rfl

/-- A slot value is accounted for by the candidate list `l`: it is still
empty, or it holds the non-empty synced or plain text of some
non-instrumental candidate of `l`. -/
def originOf (l : List LyricsResult) (o : Option String) : Prop :=
  o = none ∨ ∃ s, o = some s ∧ s ≠ "" ∧
    ∃ r ∈ l, r.instrumental = false ∧
      (r.syncedLyrics = some s ∨ r.plainLyrics = some s)

theorem originOf_mono (r : LyricsResult) (l : List LyricsResult)
    (o : Option String) (h : originOf l o) : originOf (r :: l) o := by
  rcases h with h | ⟨s, hs, hne, r', hr', hinstr, hfield⟩
  · exact Or.inl h
  · exact Or.inr ⟨s, hs, hne, r', List.mem_cons_of_mem _ hr', hinstr, hfield⟩

theorem processResult_origin (t : Int) (st : SlotState) (r : LyricsResult) :
    ((processResult t st r).synced_duration_match =
        st.synced_duration_match ∨
      originOf [r] (processResult t st r).synced_duration_match) ∧
    ((processResult t st r).synced_any = st.synced_any ∨
      originOf [r] (processResult t st r).synced_any) ∧
    ((processResult t st r).plain_duration_match =
        st.plain_duration_match ∨
      originOf [r] (processResult t st r).plain_duration_match) ∧
    ((processResult t st r).plain_any = st.plain_any ∨
      originOf [r] (processResult t st r).plain_any) := by
  refine ⟨?_, ?_, ?_, ?_⟩
  · rw [processResult_sdm]
    split_ifs with h
    · simp only [Bool.and_eq_true, Bool.not_eq_true'] at h
      obtain ⟨⟨⟨hI, hS⟩, _⟩, _⟩ := h
      obtain ⟨s, hs, hne⟩ := (strTruthy_iff _).mp hS
      exact Or.inr (Or.inr ⟨s, hs, hne, r, List.mem_singleton_self r,
        by simpa using hI, Or.inl hs⟩)
    · exact Or.inl rfl
  · rw [processResult_sany]
    split_ifs with h
    · simp only [Bool.and_eq_true, Bool.not_eq_true'] at h
      obtain ⟨⟨⟨hI, hS⟩, _⟩, _⟩ := h
      obtain ⟨s, hs, hne⟩ := (strTruthy_iff _).mp hS
      exact Or.inr (Or.inr ⟨s, hs, hne, r, List.mem_singleton_self r,
        by simpa using hI, Or.inl hs⟩)
    · exact Or.inl rfl
  · rw [processResult_pdm]
    split_ifs with h
    · simp only [Bool.and_eq_true, Bool.not_eq_true'] at h
      obtain ⟨⟨⟨hI, hP⟩, _⟩, _⟩ := h
      obtain ⟨s, hs, hne⟩ := (strTruthy_iff _).mp hP
      exact Or.inr (Or.inr ⟨s, hs, hne, r, List.mem_singleton_self r,
        by simpa using hI, Or.inr hs⟩)
    · exact Or.inl rfl
  · rw [processResult_pany]
    split_ifs with h
    · simp only [Bool.and_eq_true, Bool.not_eq_true'] at h
      obtain ⟨⟨⟨hI, hP⟩, _⟩, _⟩ := h
      obtain ⟨s, hs, hne⟩ := (strTruthy_iff _).mp hP
      exact Or.inr (Or.inr ⟨s, hs, hne, r, List.mem_singleton_self r,
        by simpa using hI, Or.inr hs⟩)
    · exact Or.inl rfl

theorem foldSlots_origin (t : Int) (l : List LyricsResult) :
    ∀ st : SlotState,
      ((foldSlots t st l).synced_duration_match =
          st.synced_duration_match ∨
        originOf l (foldSlots t st l).synced_duration_match) ∧
      ((foldSlots t st l).synced_any = st.synced_any ∨
        originOf l (foldSlots t st l).synced_any) ∧
      ((foldSlots t st l).plain_duration_match =
          st.plain_duration_match ∨
        originOf l (foldSlots t st l).plain_duration_match) ∧
      ((foldSlots t st l).plain_any = st.plain_any ∨
        originOf l (foldSlots t st l).plain_any) := by
  induction l with
  | nil => intro st; exact ⟨Or.inl rfl, Or.inl rfl, Or.inl rfl, Or.inl rfl⟩
  | cons r l ih =>
    intro st
    rw [foldSlots_cons]
    obtain ⟨ih1, ih2, ih3, ih4⟩ := ih (processResult t st r)
    obtain ⟨st1, st2, st3, st4⟩ := processResult_origin t st r
    have lift : ∀ o : Option String, originOf [r] o → originOf (r :: l) o := by
      rintro o (h | ⟨s, hs, hne, r', hr', hinstr, hfield⟩)
      · exact Or.inl h
      · simp only [List.mem_singleton] at hr'
        exact Or.inr ⟨s, hs, hne, r, hr' ▸ List.mem_cons_self r l,
          hr' ▸ hinstr, hr' ▸ hfield⟩
    refine ⟨?_, ?_, ?_, ?_⟩
    · rcases ih1 with h | h
      · rw [h]; rcases st1 with h' | h'
        · exact Or.inl h'
        · exact Or.inr (lift _ h')
      · exact Or.inr (originOf_mono r l _ h)
    · rcases ih2 with h | h
      · rw [h]; rcases st2 with h' | h'
        · exact Or.inl h'
        · exact Or.inr (lift _ h')
      · exact Or.inr (originOf_mono r l _ h)
    · rcases ih3 with h | h
      · rw [h]; rcases st3 with h' | h'
        · exact Or.inl h'
        · exact Or.inr (lift _ h')
      · exact Or.inr (originOf_mono r l _ h)
    · rcases ih4 with h | h
      · rw [h]; rcases st4 with h' | h'
        · exact Or.inl h'
        · exact Or.inr (lift _ h')
      · exact Or.inr (originOf_mono r l _ h)

theorem runSlots_origin (l : List LyricsResult) (t : Int) :
    originOf l (runSlots l t).synced_duration_match ∧
    originOf l (runSlots l t).synced_any ∧
    originOf l (runSlots l t).plain_duration_match ∧
    originOf l (runSlots l t).plain_any := by
  obtain ⟨h1, h2, h3, h4⟩ := foldSlots_origin t l initSlots
  refine ⟨?_, ?_, ?_, ?_⟩
  · rcases h1 with h | h
    · exact Or.inl h
    · exact h
  · rcases h2 with h | h
    · exact Or.inl h
    · exact h
  · rcases h3 with h | h
    · exact Or.inl h
    · exact h
  · rcases h4 with h | h
    · exact Or.inl h
    · exact h

theorem originOf_ne_empty (l : List LyricsResult) (o : Option String)
    (h : originOf l o) : o ≠ some "" := by
  rcases h with h | ⟨s, hs, hne, _⟩
  · simp [h]
  · simp [hs, hne]

/-- First-wins: a slot that is already truthy is never changed, neither by
one iteration nor by the rest of the pass. -/
theorem foldSlots_preserve (t : Int) (l : List LyricsResult) :
    ∀ st : SlotState,
      (strTruthy st.synced_duration_match = true →
        (foldSlots t st l).synced_duration_match =
          st.synced_duration_match) ∧
      (strTruthy st.synced_any = true →
        (foldSlots t st l).synced_any = st.synced_any) ∧
      (strTruthy st.plain_duration_match = true →
        (foldSlots t st l).plain_duration_match =
          st.plain_duration_match) ∧
      (strTruthy st.plain_any = true →
        (foldSlots t st l).plain_any = st.plain_any) := by
  induction l with
  | nil => intro st; exact ⟨fun _ => rfl, fun _ => rfl, fun _ => rfl,
      fun _ => rfl⟩
  | cons r l ih =>
    intro st
    rw [foldSlots_cons]
    obtain ⟨ih1, ih2, ih3, ih4⟩ := ih (processResult t st r)
    refine ⟨fun h => ?_, fun h => ?_, fun h => ?_, fun h => ?_⟩
    · have hstep : (processResult t st r).synced_duration_match =
          st.synced_duration_match := by
        rw [processResult_sdm, h]; simp
      rw [ih1 (by rw [hstep]; exact h), hstep]
    · have hstep : (processResult t st r).synced_any = st.synced_any := by
        rw [processResult_sany, h]; simp
      rw [ih2 (by rw [hstep]; exact h), hstep]
    · have hstep : (processResult t st r).plain_duration_match =
          st.plain_duration_match := by
        rw [processResult_pdm, h]; simp
      rw [ih3 (by rw [hstep]; exact h), hstep]
    · have hstep : (processResult t st r).plain_any = st.plain_any := by
        rw [processResult_pany, h]; simp
      rw [ih4 (by rw [hstep]; exact h), hstep]

/-- With target duration 0 the `if duration and target_duration` guard is
falsy, so no candidate ever duration-matches. -/
theorem durationMatch_zero (d : Option Int) : durationMatch d 0 = false := by
  simp [durationMatch]

/-- With target duration 0, the two duration-match slots stay as they
were for the whole pass. -/
theorem foldSlots_zero (l : List LyricsResult) :
    ∀ st : SlotState,
      (foldSlots 0 st l).synced_duration_match =
        st.synced_duration_match ∧
      (foldSlots 0 st l).plain_duration_match =
        st.plain_duration_match := by
  induction l with
  | nil => intro st; exact ⟨rfl, rfl⟩
  | cons r l ih =>
    intro st
    rw [foldSlots_cons]
    obtain ⟨ih1, ih2⟩ := ih (processResult 0 st r)
    have h1 : (processResult 0 st r).synced_duration_match =
        st.synced_duration_match := by
      rw [processResult_sdm, durationMatch_zero]; simp
    have h2 : (processResult 0 st r).plain_duration_match =
        st.plain_duration_match := by
      rw [processResult_pdm, durationMatch_zero]; simp
    exact ⟨by rw [ih1, h1], by rw [ih2, h2]⟩

/-- The value of the final `or` chain is always one of the four slots. -/
theorem choose_best_result_cases (l : List LyricsResult) (t : Int) :
    choose_best_result l t = (runSlots l t).synced_duration_match ∨
    choose_best_result l t = (runSlots l t).synced_any ∨
    choose_best_result l t = (runSlots l t).plain_duration_match ∨
    choose_best_result l t = (runSlots l t).plain_any := by
  unfold choose_best_result pyOr
  dsimp only
  split_ifs <;> tauto

/-- Whatever `choose_best_result` returns is accounted for by the input
list. -/
theorem choose_best_result_origin (l : List LyricsResult) (t : Int) :
    originOf l (choose_best_result l t) := by
  obtain ⟨h1, h2, h3, h4⟩ := runSlots_origin l t
  rcases choose_best_result_cases l t with h | h | h | h <;> rw [h]
  · exact h1
  · exact h2
  · exact h3
  · exact h4

theorem choose_best_result_ne_empty (l : List LyricsResult) (t : Int) :
    choose_best_result l t ≠ some "" :=
  originOf_ne_empty l _ (choose_best_result_origin l t)

theorem foldSlots_all_instrumental (t : Int) (l : List LyricsResult)
    (hall : ∀ r ∈ l, r.instrumental = true) :
    ∀ st : SlotState, foldSlots t st l = st := by
  induction l with
  | nil => intro st; rfl
  | cons r l ih =>
    intro st
    rw [foldSlots_cons,
      processResult_instrumental t st r (hall r (List.mem_cons_self r l))]
    exact ih (fun r' hr' => hall r' (List.mem_cons_of_mem _ hr')) st

/-- C5: `duration_match` is true iff the candidate's duration is present
and nonzero, the target duration is nonzero, and the absolute difference
is at most the 2-second tolerance; consequently with target duration 0 no
candidate ever duration-matches and the two duration-match slots stay
empty for the whole pass. -/
theorem C5_duration_match_iff :
    (∀ (duration : Option Int) (target_duration : Int),
      durationMatch duration target_duration = true ↔
        ∃ d, duration = some d ∧ d ≠ 0 ∧ target_duration ≠ 0 ∧
          |d - target_duration| ≤ DURATION_TOLERANCE) ∧
    (∀ (duration : Option Int), durationMatch duration 0 = false) ∧
    (∀ (results : List LyricsResult),
      (runSlots results 0).synced_duration_match = none ∧
      (runSlots results 0).plain_duration_match = none) := by
  refine ⟨?_, durationMatch_zero, ?_⟩
  · intro duration target_duration
    cases duration with
    | none => simp [durationMatch, intTruthy]
    | some d =>
      by_cases hd : d = 0 <;> by_cases ht : target_duration = 0 <;>
        simp [durationMatch, intTruthy, hd, ht]
  · intro results
    exact foldSlots_zero results initSlots

/-- C5 witness: a candidate of 181 seconds matches a 180-second target. -/
theorem C5_witness : durationMatch (some 181) 180 = true :=
  (C5_duration_match_iff.1 (some 181) 180).mpr
    ⟨181, rfl, by decide, by decide, by decide⟩

/-- C6: the four slots are first-wins — once a slot is filled after some
prefix of the candidate list, processing the rest of the list never
changes it, so the retained value is the one stored by the first
candidate that filled the slot. -/
theorem C6_first_wins :
    ∀ (t : Int) (l₁ l₂ : List LyricsResult),
      (strTruthy (runSlots l₁ t).synced_duration_match = true →
        (runSlots (l₁ ++ l₂) t).synced_duration_match =
          (runSlots l₁ t).synced_duration_match) ∧
      (strTruthy (runSlots l₁ t).synced_any = true →
        (runSlots (l₁ ++ l₂) t).synced_any = (runSlots l₁ t).synced_any) ∧
      (strTruthy (runSlots l₁ t).plain_duration_match = true →
        (runSlots (l₁ ++ l₂) t).plain_duration_match =
          (runSlots l₁ t).plain_duration_match) ∧
      (strTruthy (runSlots l₁ t).plain_any = true →
        (runSlots (l₁ ++ l₂) t).plain_any = (runSlots l₁ t).plain_any) := by
  intro t l₁ l₂
  have happ : runSlots (l₁ ++ l₂) t = foldSlots t (runSlots l₁ t) l₂ := by
    unfold runSlots foldSlots
    exact List.foldl_append _ _ l₁ l₂
  rw [happ]
  exact foldSlots_preserve t l₂ (runSlots l₁ t)

/-- C6 witness: slot 2 filled by the first list keeps its value when a
second synced candidate follows. -/
theorem C6_witness :
    strTruthy (runSlots [⟨false, none, some "A", none⟩] 7).synced_any
        = true ∧
      (runSlots ([⟨false, none, some "A", none⟩] ++
          [⟨false, none, some "B", none⟩]) 7).synced_any =
        (runSlots [⟨false, none, some "A", none⟩] 7).synced_any :=
  ⟨by decide,
   (C6_first_wins 7 [⟨false, none, some "A", none⟩]
      [⟨false, none, some "B", none⟩]).2.1 (by decide)⟩

/-- C7: an instrumental candidate leaves the loop state unchanged, and a
list with only instrumental candidates selects nothing. -/
theorem C7_instrumental_never_contributes :
    (∀ (t : Int) (st : SlotState) (r : LyricsResult),
      r.instrumental = true → processResult t st r = st) ∧
    (∀ (l : List LyricsResult) (t : Int),
      (∀ r ∈ l, r.instrumental = true) →
      choose_best_result l t = none) := by
  refine ⟨processResult_instrumental, ?_⟩
  intro l t hall
  unfold choose_best_result
  rw [show runSlots l t = initSlots from
    foldSlots_all_instrumental t l hall initSlots]
  rfl

/-- C7 witness: the spec's §8 scenario — a single instrumental candidate
carrying synced text yields "no result". -/
theorem C7_witness :
    choose_best_result [⟨true, some 180, some "X", none⟩] 180 = none :=
  C7_instrumental_never_contributes.2 [⟨true, some 180, some "X", none⟩]
    180 (by decide)

/-- C10: a returned result is a non-empty string and is the synced or
plain text of some non-instrumental candidate of the input list; the
empty string is never returned. -/
theorem C10_result_is_some_candidate_text :
    ∀ (l : List LyricsResult) (t : Int) (s : String),
      choose_best_result l t = some s →
      s ≠ "" ∧ ∃ r ∈ l, r.instrumental = false ∧
        (r.syncedLyrics = some s ∨ r.plainLyrics = some s) := by
  intro l t s h
  rcases choose_best_result_origin l t with h0 | ⟨s', hs', hne, r, hr, hi, hf⟩
  · rw [h] at h0; exact absurd h0 (by simp)
  · rw [h] at hs'
    obtain rfl : s' = s := by injection hs' with h'; exact h'.symm
    exact ⟨hne, r, hr, hi, hf⟩

/-- C10 witness: the plain-any fallback scenario returns the candidate's
own plain text. -/
theorem C10_witness :
    "C" ≠ "" ∧ ∃ r ∈ [(⟨false, some 300, none, some "C"⟩ : LyricsResult)],
      r.instrumental = false ∧
      (r.syncedLyrics = some "C" ∨ r.plainLyrics = some "C") :=
  C10_result_is_some_candidate_text [⟨false, some 300, none, some "C"⟩]
    100 "C" (by decide)

theorem pyOr_pos (a b : Option String) (h : strTruthy a = true) :
    pyOr a b = a := by
  simp [pyOr, h]

theorem pyOr_neg (a b : Option String) (h : strTruthy a = false) :
    pyOr a b = b := by
  simp [pyOr, h]

theorem choose_best_result_eq (l : List LyricsResult) (t : Int) :
    choose_best_result l t =
      pyOr (runSlots l t).synced_duration_match
        (pyOr (runSlots l t).synced_any
          (pyOr (runSlots l t).plain_duration_match
            (runSlots l t).plain_any)) := rfl

/-- C4: the returned value is the first non-empty slot in the strict
priority order synced+duration-match > synced-any > plain+duration-match
> plain-any, and `none` when all four slots are empty; moreover, one
synced duration-matching candidate beats one plain duration-matching
candidate in either list order. -/
theorem C4_strict_priority :
    (∀ (l : List LyricsResult) (t : Int),
      (∀ s, (runSlots l t).synced_duration_match = some s →
        choose_best_result l t = some s) ∧
      ((runSlots l t).synced_duration_match = none →
        ∀ s, (runSlots l t).synced_any = some s →
          choose_best_result l t = some s) ∧
      ((runSlots l t).synced_duration_match = none →
        (runSlots l t).synced_any = none →
        ∀ s, (runSlots l t).plain_duration_match = some s →
          choose_best_result l t = some s) ∧
      ((runSlots l t).synced_duration_match = none →
        (runSlots l t).synced_any = none →
        (runSlots l t).plain_duration_match = none →
        ∀ s, (runSlots l t).plain_any = some s →
          choose_best_result l t = some s) ∧
      ((runSlots l t).synced_duration_match = none →
        (runSlots l t).synced_any = none →
        (runSlots l t).plain_duration_match = none →
        (runSlots l t).plain_any = none →
        choose_best_result l t = none)) ∧
    (∀ (a b : LyricsResult) (t : Int) (sa : String),
      a.instrumental = false → b.instrumental = false →
      a.syncedLyrics = some sa → sa ≠ "" →
      durationMatch a.duration t = true →
      strTruthy b.syncedLyrics = false →
      strTruthy b.plainLyrics = true →
      durationMatch b.duration t = true →
      choose_best_result [a, b] t = some sa ∧
      choose_best_result [b, a] t = some sa) := by
  constructor
  · intro l t
    obtain ⟨o1, o2, o3, o4⟩ := runSlots_origin l t
    have ne1 := originOf_ne_empty l _ o1
    have ne2 := originOf_ne_empty l _ o2
    have ne3 := originOf_ne_empty l _ o3
    refine ⟨?_, ?_, ?_, ?_, ?_⟩
    · intro s h
      have hs : s ≠ "" := fun he => ne1 (by rw [h, he])
      rw [choose_best_result_eq,
        pyOr_pos _ _ (by rw [h]; simp [strTruthy, hs]), h]
    · intro h1 s h
      have hs : s ≠ "" := fun he => ne2 (by rw [h, he])
      rw [choose_best_result_eq, pyOr_neg _ _ (by rw [h1]; rfl),
        pyOr_pos _ _ (by rw [h]; simp [strTruthy, hs]), h]
    · intro h1 h2 s h
      have hs : s ≠ "" := fun he => ne3 (by rw [h, he])
      rw [choose_best_result_eq, pyOr_neg _ _ (by rw [h1]; rfl),
        pyOr_neg _ _ (by rw [h2]; rfl),
        pyOr_pos _ _ (by rw [h]; simp [strTruthy, hs]), h]
    · intro h1 h2 h3 s h
      rw [choose_best_result_eq, pyOr_neg _ _ (by rw [h1]; rfl),
        pyOr_neg _ _ (by rw [h2]; rfl), pyOr_neg _ _ (by rw [h3]; rfl), h]
    · intro h1 h2 h3 h4
      rw [choose_best_result_eq, pyOr_neg _ _ (by rw [h1]; rfl),
        pyOr_neg _ _ (by rw [h2]; rfl), pyOr_neg _ _ (by rw [h3]; rfl), h4]
  · intro a b t sa hIa hIb hsa hne hdma hbs hbp hdmb
    have hta : strTruthy a.syncedLyrics = true := by
      rw [hsa]; simp [strTruthy, hne]
    constructor
    · have h1 : (processResult t initSlots a).synced_duration_match =
          some sa := by
        rw [processResult_sdm]
        simp [hIa, hta, hdma, hsa, hne, initSlots, strTruthy]
      have h2 : (runSlots [a, b] t).synced_duration_match = some sa := by
        have hr : runSlots [a, b] t =
            processResult t (processResult t initSlots a) b := rfl
        rw [hr, processResult_sdm, hbs]
        simp [h1]
      rw [choose_best_result_eq,
        pyOr_pos _ _ (by rw [h2]; simp [strTruthy, hne]), h2]
    · have h1 : (processResult t initSlots b).synced_duration_match =
          none := by
        rw [processResult_sdm, hbs]
        simp [initSlots]
      have h2 : (runSlots [b, a] t).synced_duration_match = some sa := by
        have hr : runSlots [b, a] t =
            processResult t (processResult t initSlots b) a := rfl
        rw [hr, processResult_sdm]
        simp [hIa, hta, hdma, hsa, hne, h1, strTruthy]
      rw [choose_best_result_eq,
        pyOr_pos _ _ (by rw [h2]; simp [strTruthy, hne]), h2]

/-- C4 witness: the spec's §8 scenario — synced candidate of 180 s beats
plain candidate of 181 s at target 180, in both list orders. -/
theorem C4_witness :
    choose_best_result [⟨false, some 180, some "A", none⟩,
        ⟨false, some 181, none, some "B"⟩] 180 = some "A" ∧
    choose_best_result [⟨false, some 181, none, some "B"⟩,
        ⟨false, some 180, some "A", none⟩] 180 = some "A" :=
  C4_strict_priority.2 ⟨false, some 180, some "A", none⟩
    ⟨false, some 181, none, some "B"⟩ 180 "A" rfl rfl rfl (by decide)
    (by decide) rfl (by decide) (by decide)

/-- C1 counterexample: with target 180, two non-instrumental synced
candidates both duration-match; the first fills slot 1, and the second —
encountered after slot 1 is already filled — fills slot 2, contradicting
the claim that it does not fill slot 2 and is dropped entirely. -/
theorem C1_counterexample :
    durationMatch (some 180) 180 = true ∧
    (runSlots [⟨false, some 180, some "A", none⟩,
        ⟨false, some 180, some "B", none⟩] 180).synced_duration_match =
      some "A" ∧
    (runSlots [⟨false, some 180, some "A", none⟩,
        ⟨false, some 180, some "B", none⟩] 180).synced_any = some "B" :=
  ⟨by decide, by decide, by decide⟩

/-- C1 (amended): a non-instrumental candidate with truthy synced text
and a duration match, arriving when slot 1 is already filled, falls
through to the `elif` and fills slot 2 when slot 2 is still empty (slot 1
is left unchanged); symmetrically for plain text and slots 3/4. -/
theorem C1_elif_fallthrough :
    ∀ (t : Int) (st : SlotState) (r : LyricsResult),
      r.instrumental = false →
      (strTruthy r.syncedLyrics = true →
        durationMatch r.duration t = true →
        strTruthy st.synced_duration_match = true →
        strTruthy st.synced_any = false →
        (processResult t st r).synced_any = r.syncedLyrics ∧
        (processResult t st r).synced_duration_match =
          st.synced_duration_match) ∧
      (strTruthy r.plainLyrics = true →
        durationMatch r.duration t = true →
        strTruthy st.plain_duration_match = true →
        strTruthy st.plain_any = false →
        (processResult t st r).plain_any = r.plainLyrics ∧
        (processResult t st r).plain_duration_match =
          st.plain_duration_match) := by
  intro t st r hI
  constructor
  · intro hs hdm h1 h2
    constructor
    · rw [processResult_sany]
      simp [hI, hs, hdm, h1, h2]
    · rw [processResult_sdm]
      simp [hI, hs, hdm, h1]
  · intro hp hdm h1 h2
    constructor
    · rw [processResult_pany]
      simp [hI, hp, hdm, h1, h2]
    · rw [processResult_pdm]
      simp [hI, hp, hdm, h1]

/-- C1 witness: concrete fall-through of a duration-matching synced
candidate into slot 2. -/
theorem C1_witness :
    (processResult 180 ⟨some "A", none, none, none⟩
        ⟨false, some 180, some "B", none⟩).synced_any = some "B" ∧
    (processResult 180 ⟨some "A", none, none, none⟩
        ⟨false, some 180, some "B", none⟩).synced_duration_match =
      some "A" :=
  (C1_elif_fallthrough 180 ⟨some "A", none, none, none⟩
    ⟨false, some 180, some "B", none⟩ rfl).1 (by decide) (by decide)
    (by decide) rfl

/-- C2 counterexample: on a non-list payload with no transport error the
handler does release the counter — `_requests` drops from 5 to 4 and
loading is finalized once, because the early `return` still runs the
`finally` block. -/
theorem C2_counterexample :
    process_response ⟨5, 0⟩ ⟨some "a", some "t", some "3:45", none⟩
        .notList false =
      (⟨4, 1⟩, ⟨some "a", some "t", some "3:45", none⟩) := by decide

/-- C2 (amended): on a non-list payload the function logs and leaves the
`try` body early without touching metadata, but the `finally` clause
still decrements `album._requests` by one and finalizes loading exactly
once. -/
theorem C2_finally_releases (album : Album) (metadata : Metadata) :
    process_response album metadata .notList false =
      ({ requests := album.requests - 1, finalized := album.finalized + 1 },
       metadata) := rfl

/-- The metadata side of the success branch of `process_response`. -/
theorem process_response_snd (album : Album) (metadata : Metadata)
    (results : List LyricsResult) :
    (process_response album metadata (.list results) false).2 =
      match parseLength ((metadata.length).getD "0:0") with
      | none => metadata
      | some target_duration =>
        if strTruthy (choose_best_result results target_duration) then
          { metadata with
              lyrics := choose_best_result results target_duration }
        else metadata := rfl

/-- C3 counterexample: with a present but malformed length string
(`"abc"`), the parse raises inside the `try`, the broad `except` catches
it, and the selector is never run — no lyrics are written even though the
selector at target 0 would have returned a result. -/
theorem C3_counterexample :
    parseLength "abc" = none ∧
    choose_best_result [⟨false, some 300, none, some "C"⟩] 0 = some "C" ∧
    (process_response ⟨1, 0⟩ ⟨some "ar", some "ti", some "abc", none⟩
        (.list [⟨false, some 300, none, some "C"⟩]) false).2 =
      ⟨some "ar", some "ti", some "abc", none⟩ :=
  ⟨by decide, by decide, by decide⟩

/-- C3 (amended): only a *missing* length string falls back (to the
default `"0:0"`, hence target 0) with selection still proceeding; a
present but malformed length string makes the parse raise, the exception
handler skips selection and leaves the metadata untouched, while the
`finally` clause still releases the counter.  `process_track` dispatches
its request and increments the counter regardless of the length field. -/
theorem C3_malformed_length_skips_selection :
    ∀ (album : Album) (metadata : Metadata) (results : List LyricsResult),
      (metadata.length = none →
        (process_response album metadata (.list results) false).2 =
          (if strTruthy (choose_best_result results 0) then
            { metadata with lyrics := choose_best_result results 0 }
          else metadata)) ∧
      (∀ s, metadata.length = some s → parseLength s = none →
        (process_response album metadata (.list results) false).2 =
          metadata ∧
        (process_response album metadata (.list results) false).1 =
          { requests := album.requests - 1,
            finalized := album.finalized + 1 }) ∧
      ((process_track album metadata).1.requests =
        album.requests + 1) := by
  intro album metadata results
  refine ⟨?_, ?_, rfl⟩
  · intro h
    have hd : (metadata.length).getD "0:0" = "0:0" := by rw [h]; rfl
    rw [process_response_snd, hd,
      show parseLength "0:0" = some 0 from by decide]
  · intro s h hp
    have hd : (metadata.length).getD "0:0" = s := by rw [h]; rfl
    constructor
    · rw [process_response_snd, hd, hp]
    · rfl

/-- C3 witness: the malformed-length branch at a concrete input. -/
theorem C3_witness :
    (process_response ⟨1, 0⟩ ⟨some "ar", some "ti", some "abc", none⟩
        (.list [⟨false, some 300, none, some "C"⟩]) false).2 =
      ⟨some "ar", some "ti", some "abc", none⟩ ∧
    (process_response ⟨1, 0⟩ ⟨some "ar", some "ti", some "abc", none⟩
        (.list [⟨false, some 300, none, some "C"⟩]) false).1 = ⟨0, 1⟩ :=
  (C3_malformed_length_skips_selection ⟨1, 0⟩
    ⟨some "ar", some "ti", some "abc", none⟩
    [⟨false, some 300, none, some "C"⟩]).2.1 "abc" rfl (by decide)

/-- C8: every completion path of `process_response` — transport error,
non-list payload, parse exception, selection with or without a result —
decrements `album._requests` exactly once and finalizes loading exactly
once, and `process_track` increments the counter exactly once for its one
dispatched request. -/
theorem C8_counter_balance :
    ∀ (album : Album) (metadata : Metadata) (data : ResponseData)
      (error : Bool),
      (process_response album metadata data error).1.requests =
        album.requests - 1 ∧
      (process_response album metadata data error).1.finalized =
        album.finalized + 1 ∧
      (process_track album metadata).1.requests = album.requests + 1 := by
  intro album metadata data error
  cases error with
  | false => exact ⟨rfl, rfl, rfl⟩
  | true => exact ⟨rfl, rfl, rfl⟩

/-- C9: `process_response` either leaves the metadata exactly as it was,
or — only when the payload is a list, there is no transport error, the
length parse succeeds and the selector returns a text — writes that text
verbatim into the lyrics field and nothing else; on a transport error, a
non-list payload, or a "no result" selection the metadata is untouched. -/
theorem C9_metadata_frame :
    ∀ (album : Album) (metadata : Metadata) (data : ResponseData)
      (error : Bool),
      ((process_response album metadata data error).2.artist =
          metadata.artist ∧
        (process_response album metadata data error).2.title =
          metadata.title ∧
        (process_response album metadata data error).2.length =
          metadata.length) ∧
      ((process_response album metadata data error).2 = metadata ∨
        ∃ results target_duration s,
          data = .list results ∧ error = false ∧
          parseLength ((metadata.length).getD "0:0") =
            some target_duration ∧
          choose_best_result results target_duration = some s ∧
          s ≠ "" ∧
          (process_response album metadata data error).2 =
            { metadata with lyrics := some s }) ∧
      (error = true →
        (process_response album metadata data error).2 = metadata) ∧
      (data = .notList →
        (process_response album metadata data error).2 = metadata) ∧
      (∀ results target_duration, data = .list results → error = false →
        parseLength ((metadata.length).getD "0:0") =
          some target_duration →
        choose_best_result results target_duration = none →
        (process_response album metadata data error).2 = metadata) := by
  intro album metadata data error
  have key : (process_response album metadata data error).2 = metadata ∨
      ∃ results target_duration s,
        data = .list results ∧ error = false ∧
        parseLength ((metadata.length).getD "0:0") =
          some target_duration ∧
        choose_best_result results target_duration = some s ∧ s ≠ "" ∧
        (process_response album metadata data error).2 =
          { metadata with lyrics := some s } := by
    cases error with
    | true => exact Or.inl rfl
    | false =>
      cases data with
      | notList => exact Or.inl rfl
      | list results =>
        rcases hp : parseLength ((metadata.length).getD "0:0") with _ | target
        · left
          rw [process_response_snd, hp]
        · rcases hc : choose_best_result results target with _ | s
          · left
            rw [process_response_snd, hp]
            dsimp only
            rw [hc]
            rfl
          · right
            have hs : s ≠ "" := by
              intro he
              exact choose_best_result_ne_empty results target
                (by rw [hc, he])
            refine ⟨results, target, s, rfl, rfl, rfl, hc, hs, ?_⟩
            rw [process_response_snd, hp]
            dsimp only
            rw [hc]
            simp [strTruthy, hs]
  refine ⟨?_, key, ?_, ?_, ?_⟩
  · rcases key with h | ⟨_, _, _, _, _, _, _, _, h⟩ <;> rw [h] <;>
      exact ⟨rfl, rfl, rfl⟩
  · intro he
    subst he
    rfl
  · intro hd
    subst hd
    cases error with
    | true => rfl
    | false => rfl
  · intro results target hd he hp hc
    subst hd
    subst he
    rw [process_response_snd, hp]
    dsimp only
    rw [hc]
    rfl

/-- C9 witness: error and no-result branches at concrete inputs. -/
theorem C9_witness :
    (process_response ⟨1, 0⟩ ⟨some "ar", some "ti", some "3:45", none⟩
        .notList true).2 = ⟨some "ar", some "ti", some "3:45", none⟩ :=
  (C9_metadata_frame ⟨1, 0⟩ ⟨some "ar", some "ti", some "3:45", none⟩
    .notList true).2.2.1 rfl

end PicardSozler

